import Mathlib

/-!
Verification development for the `be_great` pipeline (`be_great/great.py`).

The repository wraps an external language model: tokenization, generation and
training are external services.  We shallowly embed the orchestration logic of
`GReaT`: the sampling quota loop with its numeric/NaN row filter, the start
sampler selection (`_get_start_sampler`), the conditional-column update
(`_update_conditional_information`), `great_sample`, and the `save` /
`load_from_dir` persistence pair.  The external generator together with the
text decoder is abstracted as a stream of already-decoded partial rows; the
unbounded `while` loop is embedded with an explicit fuel parameter, `none`
meaning the loop did not exit within the given fuel.
-/

namespace BeGreat

/-- A decoded partial row: an association list from column name to the decoded
string value.  A column absent from the list is a missing (NaN) field. -/
abbrev Row := List (String × String)

/-- The value held in `conditional_col_dist` / `start_col_dist`.
Modelled from the spec: `_get_column_distribution` (from `great_utils`, not in
`src/`) yields either a mapping category to probability for a discrete column
or an ordered sequence of observed values for a continuous one.  Probabilities
and observed values are represented exactly as rationals. -/
inductive DistVal where
  | dict (entries : List (String × Rat))
  | list (vals : List Rat)
deriving DecidableEq

/-- The attribute state of a `GReaT` instance (everything in `__dict__` except
the external `tokenizer` and `model` objects). -/
structure GReaT where
  llm : String
  experiment_dir : String
  epochs : Nat
  batch_size : Nat
  train_hyperparameters : List (String × String)
  columns : Option (List String)
  num_cols : Option (List String)
  conditional_col : Option String
  conditional_col_dist : Option DistVal
deriving DecidableEq

/-- `GReaT.__init__(llm)` with all keyword arguments at their defaults: the
four sampling attributes start out as `None`. -/
def GReaT.init (llm : String) : GReaT :=
  { llm := llm
    experiment_dir := "trainer_great"
    epochs := 100
    batch_size := 8
    train_hyperparameters := []
    columns := none
    num_cols := none
    conditional_col := none
    conditional_col_dist := none }

/-- Python truthiness of the `start_col` argument: `None` and the empty
string are falsy. -/
def colTruthy : Option String → Bool
  | none => false
  | some s => !(s == "")

/-- Python truthiness of the `start_col_dist` argument: `None`, the empty
dict and the empty list are falsy. -/
def distTruthy : Option DistVal → Bool
  | none => false
  | some (.dict kv) => !kv.isEmpty
  | some (.list vs) => !vs.isEmpty

/-- Digits, optionally followed by a decimal point and digits; at least one
digit overall. -/
def numBody (cs : List Char) : Bool :=
  let ip := cs.takeWhile Char.isDigit
  let rest := cs.dropWhile Char.isDigit
  match rest with
  | [] => !ip.isEmpty
  | '.' :: fp => (!ip.isEmpty || !fp.isEmpty) && fp.all Char.isDigit
  | _ => false

/-- Whether `pd.to_numeric(value, errors="coerce")` succeeds on a decoded
string value: an optional sign followed by a decimal literal.  `to_numeric`
is a pandas (external library) call; this is its success predicate on the
string values our rows carry. -/
def parsesNum (s : String) : Bool :=
  match s.data with
  | [] => false
  | c :: cs => if c == '-' || c == '+' then numBody cs else numBody (c :: cs)

/-- Value of column `c` in a partial row, `none` when the field is missing. -/
def lookupField (r : Row) (c : String) : Option String :=
  (r.find? (fun p => p.1 == c)).map Prod.snd

/-- The row filter of `GReaT.sample` (lines 130-135): every numeric column
must be present and parse as a number, and no column of the column set may be
missing (NaN). -/
def validRow (ncols cols : List String) (r : Row) : Bool :=
  (ncols.all fun c =>
    match lookupField r c with
    | some v => parsesNum v
    | none => false) &&
  (cols.all fun c => (lookupField r c).isSome)

/-- `pandas.DataFrame.head(n)` for an `int` argument: the first `n` rows for
nonnegative `n`, and all rows but the last `-n` for negative `n`. -/
def headInt (n : Int) (l : List α) : List α :=
  if 0 ≤ n then l.take n.toNat else l.take (l.length - (-n).toNat)

/-- A dataframe: a column index plus the list of rows. -/
structure DataFrame where
  cols : List String
  rows : List Row
deriving DecidableEq

/-- The quota loop of `GReaT.sample`: while `n_samples > df_gen.shape[0]`,
append the next decoded batch and refilter the whole frame.  `gen i` is the
decoded output of the external generator on iteration `i`; `fuel` bounds the
number of iterations we unfold, `none` meaning the loop has not exited yet. -/
def sampleLoop (ncols cols : List String) (gen : Nat → List Row) (n : Int) :
    Nat → Nat → List Row → Option (List Row)
  | 0, _, acc => if n > (acc.length : Int) then none else some acc
  | fuel + 1, i, acc =>
    if n > (acc.length : Int) then
      sampleLoop ncols cols gen n fuel (i + 1)
        ((acc ++ gen i).filter (validRow ncols cols))
    else some acc

/-- The accumulator contents after unconditionally unfolding `fuel` iterations
of the quota loop body from iteration `i` and accumulator `acc`. -/
def accFrom (ncols cols : List String) (gen : Nat → List Row) :
    Nat → Nat → List Row → List Row
  | 0, _, acc => acc
  | fuel + 1, i, acc =>
    accFrom ncols cols gen fuel (i + 1)
      ((acc ++ gen i).filter (validRow ncols cols))

/-- `GReaT.sample(n_samples)` with the start arguments at their defaults (the
start sampler construction then always succeeds and only influences the
generated batches, which are abstracted by `gen`): run the quota loop from an
empty frame with the fitted column set, then return `df_gen.head(n_samples)`.
`none` when the loop has not terminated within `fuel` iterations. -/
def GReaT.sample (st : GReaT) (gen : Nat → List Row) (fuel : Nat) (n : Int) :
    Option DataFrame :=
  match st.columns, st.num_cols with
  | some cols, some ncols =>
    (sampleLoop ncols cols gen n fuel 0 []).map fun acc =>
      ⟨cols, headInt n acc⟩
  | _, _ => none

/-- Modelled from the spec: the start sampler variants of `great_start` (not
in `src/`) are plain records of the data their constructors receive — the
start column and its categorical distribution, the start column and its list
of observed values, or the column set for the uniform random fallback. -/
inductive GReaTStart where
  | categorical (col : Option String) (dist : List (String × Rat))
  | continuous (col : Option String) (vals : List Rat)
  | random (cols : Option (List String))
deriving DecidableEq

/-- `GReaT._get_start_sampler(start_col, start_col_dist)`: raise when exactly
one of the two arguments is truthy/non-None, otherwise fall back to the fitted
conditional column and distribution (Python truthiness decides the fallback),
and select the variant by the type of the effective distribution. -/
def GReaT.getStartSampler (st : GReaT) (start_col : Option String)
    (start_col_dist : Option DistVal) : Except String GReaTStart :=
  if colTruthy start_col && start_col_dist.isNone then
    .error "Start column was given, but no corresponding distribution."
  else if start_col_dist.isSome && !colTruthy start_col then
    .error "Start column distribution was given, the column name is missing."
  else
    let col := if colTruthy start_col then start_col else st.conditional_col
    let dist := if distTruthy start_col_dist then start_col_dist
                else st.conditional_col_dist
    match dist with
    | some (.dict kv) => .ok (.categorical col kv)
    | some (.list vs) => .ok (.continuous col vs)
    | none => .ok (.random st.columns)

/-- Split a character list at every occurrence of `sep`; `skip` counts
separator characters still to be consumed, `cur` is the current segment
reversed. -/
def splitSepAux (sep : List Char) : List Char → Nat → List Char → List (List Char)
  | [], _, cur => [cur.reverse]
  | _ :: cs, skip + 1, cur => splitSepAux sep cs skip cur
  | c :: cs, 0, cur =>
    if sep.isPrefixOf (c :: cs) then
      cur.reverse :: splitSepAux sep cs (sep.length - 1) []
    else splitSepAux sep cs 0 (c :: cur)

/-- Split at every occurrence of the separator (Python `str.split(sep)`). -/
def splitSep (sep : List Char) (cs : List Char) : List (List Char) :=
  splitSepAux sep cs 0 []

/-- Split at the first occurrence of `sep` only, `none` when `sep` does not
occur. -/
def splitFirstAux (sep : List Char) : List Char → List Char →
    Option (List Char × List Char)
  | [], _ => none
  | c :: cs, cur =>
    if sep.isPrefixOf (c :: cs) then
      some (cur.reverse, (c :: cs).drop sep.length)
    else splitFirstAux sep cs (c :: cur)

/-- Modelled from the spec: `_convert_text_to_tabular_data` (from
`great_utils`, not in `src/`) decodes one generated text into a partial row —
split the text on the pair separator, split each segment at the first
occurrence of the key/value separator, match the key case-insensitively
against the known column set, and silently drop segments that do not parse or
whose key matches no known column. -/
def decodeRow (columns : List String) (text : String) : Row :=
  (splitSep [',', ' '] text.data).filterMap fun seg =>
    match splitFirstAux [' ', 'i', 's', ' '] seg [] with
    | some (k, v) =>
      match columns.find? (fun c =>
          c.data.map Char.toLower == k.map Char.toLower) with
      | some c => some (c, String.mk v)
      | none => none
    | none => none

/-- `GReaT.great_sample(starting_prompts)`: one generation per prompt, decode
every generation into a row of the output frame, no quota loop and no
validity filter.  `generate` abstracts tokenize/generate/detokenize. -/
def GReaT.great_sample (st : GReaT) (generate : String → String)
    (prompts : List String) : DataFrame :=
  let cols := st.columns.getD []
  ⟨cols, prompts.map fun p => decodeRow cols (generate p)⟩

/-- JSON values, with numbers represented exactly. -/
inductive Json where
  | null
  | str (s : String)
  | num (q : Rat)
  | arr (xs : List Json)
  | obj (kvs : List (String × Json))

/-- JSON encoding of an optional column list. -/
def optListStrToJson : Option (List String) → Json
  | none => .null
  | some cs => .arr (cs.map Json.str)

/-- JSON encoding of an optional string. -/
def optStrToJson : Option String → Json
  | none => .null
  | some s => .str s

/-- JSON encoding of a distribution: a dict becomes an object, a list an
array.  (The `np.ndarray` branch of `save` never fires: the distribution
values of the model are already dicts or lists.) -/
def DistVal.toJson : DistVal → Json
  | .dict kv => .obj (kv.map fun p => (p.1, Json.num p.2))
  | .list vs => .arr (vs.map Json.num)

/-- JSON encoding of the optional conditional distribution. -/
def optDistToJson : Option DistVal → Json
  | none => .null
  | some d => d.toJson

/-- JSON encoding of the training keyword arguments. -/
def hyperToJson (kw : List (String × String)) : Json :=
  .obj (kw.map fun p => (p.1, Json.str p.2))

/-- The attribute dictionary written by `GReaT.save`: `self.__dict__` minus
`tokenizer` and `model`, in insertion order. -/
def GReaT.saveConfig (st : GReaT) : List (String × Json) :=
  [("llm", .str st.llm),
   ("experiment_dir", .str st.experiment_dir),
   ("epochs", .num (st.epochs : Rat)),
   ("batch_size", .num (st.batch_size : Rat)),
   ("train_hyperparameters", hyperToJson st.train_hyperparameters),
   ("columns", optListStrToJson st.columns),
   ("num_cols", optListStrToJson st.num_cols),
   ("conditional_col", optStrToJson st.conditional_col),
   ("conditional_col_dist", optDistToJson st.conditional_col_dist)]

/-- `GReaT.save(path)`: warn when the target directory already exists (and
overwrite), create it otherwise; in both cases write the attribute dictionary.
The first component is the list of emitted warnings, the second the written
config. -/
def GReaT.save (st : GReaT) (dirExists : Bool) :
    List String × List (String × Json) :=
  (if dirExists then ["Directory already exists and is overwritten now."]
   else [],
   st.saveConfig)

/-- Decode a JSON string, with a default for non-strings. -/
def jsonToStr (d : String) : Json → String
  | .str s => s
  | _ => d

/-- Decode a JSON number to a natural, with a default otherwise. -/
def jsonToNat (d : Nat) : Json → Nat
  | .num q => q.num.toNat
  | _ => d

/-- Decode a JSON number to a rational. -/
def jsonToRat : Json → Rat
  | .num q => q
  | _ => 0

/-- Decode an optional column list: an array of strings, or `None`. -/
def jsonToOptListStr : Json → Option (List String)
  | .arr xs => some (xs.map (jsonToStr ""))
  | _ => none

/-- Decode an optional string. -/
def jsonToOptStr : Json → Option String
  | .str s => some s
  | _ => none

/-- Decode an optional distribution: a JSON object is a dict, an array a
list, anything else `None` — exactly how `json.load` rebuilds the Python
value. -/
def jsonToOptDist : Json → Option DistVal
  | .obj kvs => some (.dict (kvs.map fun p => (p.1, jsonToRat p.2)))
  | .arr xs => some (.list (xs.map jsonToRat))
  | _ => none

/-- Decode the training keyword arguments. -/
def jsonToHyper : Json → List (String × String)
  | .obj kvs => kvs.map fun p => (p.1, jsonToStr "" p.2)
  | _ => []

/-- One `setattr(great, k, v)` step of `load_from_dir`: overwrite the named
attribute with the decoded JSON value. -/
def setAttr (st : GReaT) (kv : String × Json) : GReaT :=
  let (k, v) := kv
  if k = "llm" then { st with llm := jsonToStr st.llm v }
  else if k = "experiment_dir" then
    { st with experiment_dir := jsonToStr st.experiment_dir v }
  else if k = "epochs" then { st with epochs := jsonToNat st.epochs v }
  else if k = "batch_size" then
    { st with batch_size := jsonToNat st.batch_size v }
  else if k = "train_hyperparameters" then
    { st with train_hyperparameters := jsonToHyper v }
  else if k = "columns" then { st with columns := jsonToOptListStr v }
  else if k = "num_cols" then { st with num_cols := jsonToOptListStr v }
  else if k = "conditional_col" then
    { st with conditional_col := jsonToOptStr v }
  else if k = "conditional_col_dist" then
    { st with conditional_col_dist := jsonToOptDist v }
  else st

/-- `GReaT.load_from_dir(path)`: assert the directory exists (hard failure
before reading anything otherwise), construct a fresh instance from the
stored `llm`, then `setattr` every stored attribute onto it. -/
def GReaT.load_from_dir (dirExists : Bool) (cfg : List (String × Json)) :
    Except String GReaT :=
  if dirExists then
    match cfg.find? (fun p => p.1 = "llm") with
    | some p => .ok (cfg.foldl setAttr (GReaT.init (jsonToStr "" p.2)))
    | none => .error "KeyError: llm"
  else .error "Directory does not exist."

/-- The Python value passed as `conditional_col` to
`_update_conditional_information`: `None`, a string, or a value of any other
type (which the first assertion rejects). -/
inductive PyArg where
  | none
  | str (s : String)
  | other
deriving DecidableEq

/-- `GReaT._update_conditional_information(df, conditional_col)`: assert the
argument is `None` or a string present in the dataframe columns, then store
the argument if truthy and otherwise the last column, together with that
column's distribution.  `distOf` abstracts `_get_column_distribution` (from
`great_utils`, not in `src/`); `df_columns` are the dataframe's columns. -/
def GReaT.updateConditionalInformation (st : GReaT) (df_columns : List String)
    (conditional_col : PyArg) (distOf : String → DistVal) :
    Except String GReaT :=
  match conditional_col with
  | .other => .error "The column name has to be a string"
  | .none =>
    match df_columns.getLast? with
    | some last =>
      .ok { st with conditional_col := some last,
                    conditional_col_dist := some (distOf last) }
    | Option.none => .error "index out of range"
  | .str s =>
    if s ∈ df_columns then
      if s ≠ "" then
        .ok { st with conditional_col := some s,
                      conditional_col_dist := some (distOf s) }
      else
        match df_columns.getLast? with
        | some last =>
          .ok { st with conditional_col := some last,
                        conditional_col_dist := some (distOf last) }
        | Option.none => .error "index out of range"
    else .error "The column name is not in the feature names of the dataset"

/-- A minimal fitted instance: one numeric column `age`. -/
def fittedAge : GReaT := { GReaT.init "gpt2" with
  columns := some ["age"]
  num_cols := some ["age"] }

/-- A fitted instance whose conditional column `income` carries a continuous
(list) distribution. -/
def fittedIncome : GReaT := { GReaT.init "gpt2" with
  columns := some ["age", "income"]
  conditional_col := some "income"
  conditional_col_dist := some (.list [1, 2]) }

/-- The rows kept by the quota-loop filter all satisfy the filter. -/
lemma filter_all_self (p : α → Bool) (l : List α) : (l.filter p).all p = true := by
  simp only [List.all_eq_true]
  intro x hx
  exact (List.mem_filter.mp hx).2

/-- When the loop condition fails, the loop exits at once with the current
accumulator, whatever fuel remains. -/
lemma sampleLoop_exit (ncols cols : List String) (gen : Nat → List Row) (n : Int)
    (fuel i : Nat) (acc : List Row) (h : ¬ n > (acc.length : Int)) :
    sampleLoop ncols cols gen n fuel i acc = some acc := by
  cases fuel with
  | zero => simp only [sampleLoop]; rw [if_neg h]
  | succ f => simp only [sampleLoop]; rw [if_neg h]

/-- If unconditionally unfolding `fuel` iterations would accumulate at least
`n` valid rows, the quota loop exits within `fuel` iterations, with at least
`n` rows, all of them valid. -/
lemma sampleLoop_complete (ncols cols : List String) (gen : Nat → List Row)
    (n : Int) :
    ∀ (fuel i : Nat) (acc : List Row),
      n ≤ ((accFrom ncols cols gen fuel i acc).length : Int) →
      acc.all (validRow ncols cols) = true →
      ∃ res, sampleLoop ncols cols gen n fuel i acc = some res ∧
        n ≤ (res.length : Int) ∧ res.all (validRow ncols cols) = true := by
  intro fuel
  induction fuel with
  | zero =>
    intro i acc h hv
    simp only [accFrom] at h
    exact ⟨acc, sampleLoop_exit ncols cols gen n 0 i acc (not_lt.mpr h), h, hv⟩
  | succ fuel ih =>
    intro i acc h hv
    by_cases hcond : n > (acc.length : Int)
    · simp only [accFrom] at h
      simp only [sampleLoop]
      rw [if_pos hcond]
      exact ih (i + 1) _ h (filter_all_self _ _)
    · exact ⟨acc, sampleLoop_exit ncols cols gen n (fuel + 1) i acc hcond,
        not_lt.mp hcond, hv⟩

/-- Claim C1: for every `n_samples`, if the generation loop would accumulate
at least `n_samples` valid rows within some number of iterations, then
`sample(n_samples)` terminates within those iterations and returns a table of
exactly `n_samples` rows, each with every numeric column parseable as a
number and no missing field in the column set. -/
theorem sample_quota_invariant (st : GReaT) (cols ncols : List String)
    (gen : Nat → List Row) (fuel n : Nat)
    (hc : st.columns = some cols) (hnc : st.num_cols = some ncols)
    (hacc : n ≤ (accFrom ncols cols gen fuel 0 []).length) :
    ∃ df, st.sample gen fuel (n : Int) = some df ∧
      df.rows.length = n ∧ df.rows.all (validRow ncols cols) = true := by
  obtain ⟨res, hres, hlen, hval⟩ :=
    sampleLoop_complete ncols cols gen (n : Int) fuel 0 []
      (by exact_mod_cast hacc) rfl
  have hlen' : n ≤ res.length := by exact_mod_cast hlen
  refine ⟨⟨cols, headInt (n : Int) res⟩, ?_, ?_, ?_⟩
  · simp [GReaT.sample, hc, hnc, hres]
  · simp [headInt, List.length_take]
    omega
  · simp only [headInt, if_pos (Int.ofNat_nonneg n)]
    simp only [List.all_eq_true]
    intro r hr
    exact (List.all_eq_true.mp hval) r (List.take_subset _ _ hr)

/-- If every generated batch filters to nothing, the loop never makes
progress from an empty accumulator: no amount of fuel makes it exit. -/
lemma sampleLoop_all_invalid (ncols cols : List String) (gen : Nat → List Row)
    (n : Int) (hn : 1 ≤ n)
    (hinv : ∀ i, (gen i).filter (validRow ncols cols) = []) :
    ∀ fuel i, sampleLoop ncols cols gen n fuel i [] = none := by
  intro fuel
  induction fuel with
  | zero =>
    intro i
    simp only [sampleLoop]
    rw [if_pos (by simp; omega)]
  | succ fuel ih =>
    intro i
    simp only [sampleLoop]
    rw [if_pos (by simp; omega), List.nil_append, hinv i]
    exact ih (i + 1)

/-- Claim C4: if every batch produced by the generator decodes to rows that
all fail validation, then `sample(n)` with `n >= 1` never terminates — for
every amount of fuel the quota loop is still running. -/
theorem sample_all_invalid_diverges (st : GReaT) (cols ncols : List String)
    (gen : Nat → List Row) (n : Int)
    (hc : st.columns = some cols) (hnc : st.num_cols = some ncols)
    (hinv : ∀ i, (gen i).filter (validRow ncols cols) = [])
    (hn : 1 ≤ n) :
    ∀ fuel, st.sample gen fuel n = none := by
  intro fuel
  simp [GReaT.sample, hc, hnc, sampleLoop_all_invalid ncols cols gen n hn hinv]

/-- Claim C10: for every `n_samples <= 0`, `sample(n_samples)` runs the loop
body zero times (zero fuel suffices, and the result does not depend on the
generator or the fuel) and returns an empty table over the fitted column
set. -/
theorem sample_nonpos_empty (st : GReaT) (cols ncols : List String)
    (hc : st.columns = some cols) (hnc : st.num_cols = some ncols)
    (n : Int) (hn : n ≤ 0) :
    ∀ (gen : Nat → List Row) (fuel : Nat),
      st.sample gen fuel n = some ⟨cols, []⟩ := by
  intro gen fuel
  have hcond : ¬ n > ((([] : List Row)).length : Int) := by simp; omega
  simp [GReaT.sample, hc, hnc, sampleLoop_exit ncols cols gen n fuel 0 [] hcond,
    headInt]

/-- Witness for C1: a one-column table, a generator that always emits a valid
row, one loop iteration: `sample(1)` returns exactly one valid row. -/
theorem sample_quota_invariant_witness :
    (fittedAge.columns = some ["age"]) ∧
    (fittedAge.num_cols = some ["age"]) ∧
    (1 ≤ (accFrom ["age"] ["age"] (fun _ => [[("age", "30")]]) 1 0 []).length) ∧
    (∃ df, fittedAge.sample
          (fun _ => [[("age", "30")]]) 1 ((1 : Nat) : Int) = some df ∧
      df.rows.length = 1 ∧ df.rows.all (validRow ["age"] ["age"]) = true) :=
  ⟨rfl, rfl, by decide,
   sample_quota_invariant fittedAge ["age"] ["age"] _ 1 1 rfl rfl (by decide)⟩

/-- Witness for C4: a generator whose every row has an unparseable numeric
field never lets `sample(1)` exit, here checked at fuel 5. -/
theorem sample_all_invalid_diverges_witness :
    (∀ i : Nat, ((fun _ : Nat => [[("age", "abc")]] : Nat → List Row) i).filter
        (validRow ["age"] ["age"]) = []) ∧
    ((1 : Int) ≤ 1) ∧
    fittedAge.sample (fun _ => [[("age", "abc")]]) 5 1 = none :=
  ⟨fun _ => show (([[("age", "abc")]] : List Row)).filter
      (validRow ["age"] ["age"]) = [] from by decide,
   le_refl 1,
   sample_all_invalid_diverges fittedAge ["age"] ["age"] _ 1 rfl rfl
     (fun _ => show (([[("age", "abc")]] : List Row)).filter
       (validRow ["age"] ["age"]) = [] from by decide) (le_refl 1) 5⟩

/-- Witness for C10: `sample(-2)` returns the empty table over the fitted
columns without consuming the generator. -/
theorem sample_nonpos_empty_witness :
    (fittedAge.columns = some ["age"]) ∧
    (fittedAge.num_cols = some ["age"]) ∧
    ((-2 : Int) ≤ 0) ∧
    fittedAge.sample (fun _ => [[("age", "30")]]) 3 (-2) = some ⟨["age"], []⟩ :=
  ⟨rfl, rfl, by decide,
   sample_nonpos_empty fittedAge ["age"] ["age"] rfl rfl (-2) (by decide) _ 3⟩

/-- Claim C2: supplying exactly one of start column and start distribution
(the other left at its default, the empty string resp. `None`) raises an
invalid-argument error, whichever one is supplied. -/
theorem getStartSampler_exactly_one_errors (st : GReaT) (c : String)
    (d : DistVal) (hc : c ≠ "") :
    st.getStartSampler (some c) none =
      .error "Start column was given, but no corresponding distribution." ∧
    st.getStartSampler (some "") (some d) =
      .error "Start column distribution was given, the column name is missing." := by
  have hbe : (c == "") = false := beq_eq_false_iff_ne.mpr hc
  constructor
  · simp [GReaT.getStartSampler, colTruthy, hbe]
  · simp [GReaT.getStartSampler, colTruthy]

/-- Witness for C2: with a fresh instance, supplying only a start column or
only a start distribution errors. -/
theorem getStartSampler_exactly_one_errors_witness :
    ("sex" : String) ≠ "" ∧
    ((GReaT.init "gpt2").getStartSampler (some "sex") none =
      .error "Start column was given, but no corresponding distribution." ∧
    (GReaT.init "gpt2").getStartSampler (some "")
        (some (.dict [("M", 1)])) =
      .error "Start column distribution was given, the column name is missing.") :=
  ⟨by decide,
   getStartSampler_exactly_one_errors (GReaT.init "gpt2") "sex"
     (.dict [("M", 1)]) (by decide)⟩

/-- Claim C5: with both start arguments at their defaults, the sampler falls
back to the fitted conditional column and distribution — a dict yields the
categorical variant, a list the continuous one — and with no fitted
distribution at all, to the uniform random start over the column set. -/
theorem getStartSampler_default_fallback (st : GReaT) :
    st.getStartSampler (some "") none =
      .ok (match st.conditional_col_dist with
        | some (.dict kv) => .categorical st.conditional_col kv
        | some (.list vs) => .continuous st.conditional_col vs
        | none => .random st.columns) := by
  cases hd : st.conditional_col_dist with
  | none => simp [GReaT.getStartSampler, colTruthy, distTruthy, hd]
  | some d => cases d <;>
      simp [GReaT.getStartSampler, colTruthy, distTruthy, hd]

/-- Claim C9: a non-empty start column together with an empty dict or empty
list distribution passes both fail-fast checks, but the empty distribution is
falsy and silently replaced by the fitted conditional distribution, whose
shape then selects the sampler variant. -/
theorem getStartSampler_empty_dist_discarded (st : GReaT) (c : String)
    (d : DistVal) (hc : c ≠ "") (hd : d = .dict [] ∨ d = .list []) :
    st.getStartSampler (some c) (some d) =
      .ok (match st.conditional_col_dist with
        | some (.dict kv) => .categorical (some c) kv
        | some (.list vs) => .continuous (some c) vs
        | none => .random st.columns) := by
  have hbe : (c == "") = false := beq_eq_false_iff_ne.mpr hc
  have hdt : distTruthy (some d) = false := by
    rcases hd with h | h <;> simp [distTruthy, h]
  cases hcd : st.conditional_col_dist with
  | none => simp [GReaT.getStartSampler, colTruthy, hbe, hdt, hcd]
  | some d2 => cases d2 <;>
      simp [GReaT.getStartSampler, colTruthy, hbe, hdt, hcd]

/-- Witness for C9: a fitted continuous distribution, a caller-supplied empty
dict: the result is the continuous variant built from the fitted values. -/
theorem getStartSampler_empty_dist_discarded_witness :
    ("age" : String) ≠ "" ∧
    ((DistVal.dict [] = DistVal.dict []) ∨ (DistVal.dict [] = DistVal.list [])) ∧
    fittedIncome.getStartSampler
      (some "age") (some (.dict [])) = .ok (.continuous (some "age") [1, 2]) :=
  ⟨by decide, Or.inl rfl,
   getStartSampler_empty_dist_discarded fittedIncome
     "age" (.dict []) (by decide) (Or.inl rfl)⟩

/-- Claim C6: `great_sample(prompts)` performs exactly one generation per
prompt — the output has one row per prompt — and every decoded row is
returned, with no quota loop, retry, or validity filter dropping any of
them. -/
theorem great_sample_no_quota_no_filter (st : GReaT)
    (generate : String → String) (prompts : List String) :
    (st.great_sample generate prompts).rows.length = prompts.length ∧
    ∀ p, p ∈ prompts →
      decodeRow (st.columns.getD []) (generate p) ∈
        (st.great_sample generate prompts).rows := by
  constructor
  · simp [GReaT.great_sample]
  · intro p hp
    exact List.mem_map_of_mem _ hp

/-- Witness for C6: a generation decoding to a row with an unparseable
numeric field is still returned by `great_sample`, although `validRow`
rejects it. -/
theorem great_sample_no_quota_no_filter_witness :
    ("x" ∈ (["x"] : List String)) ∧
    (fittedAge.great_sample (fun _ => "age is abc") ["x"]).rows.length = 1 ∧
    decodeRow ["age"] "age is abc" ∈
      (fittedAge.great_sample (fun _ => "age is abc") ["x"]).rows ∧
    validRow ["age"] ["age"] (decodeRow ["age"] "age is abc") = false :=
  ⟨List.mem_singleton.mpr rfl,
   (great_sample_no_quota_no_filter fittedAge (fun _ => "age is abc") ["x"]).1,
   (great_sample_no_quota_no_filter fittedAge
      (fun _ => "age is abc") ["x"]).2 "x" (List.mem_singleton.mpr rfl),
   by decide⟩

/-- Decoding an encoded string list gives the list back. -/
lemma jsonToStr_map_str (cs : List String) :
    (cs.map Json.str).map (jsonToStr "") = cs := by
  induction cs with
  | nil => rfl
  | cons c cs ih => rw [List.map_cons, List.map_cons, ih]; rfl

/-- Decoding an encoded optional column list gives it back. -/
lemma optListStr_roundtrip (o : Option (List String)) :
    jsonToOptListStr (optListStrToJson o) = o := by
  cases o with
  | none => rfl
  | some cs =>
    simp only [optListStrToJson, jsonToOptListStr]
    rw [jsonToStr_map_str]

/-- Decoding an encoded optional string gives it back. -/
lemma optStr_roundtrip (o : Option String) :
    jsonToOptStr (optStrToJson o) = o := by
  cases o <;> rfl

/-- Decoding an encoded rational list gives it back. -/
lemma jsonToRat_map_num (vs : List Rat) :
    (vs.map Json.num).map jsonToRat = vs := by
  induction vs with
  | nil => rfl
  | cons v vs ih => rw [List.map_cons, List.map_cons, ih]; rfl

/-- Decoding encoded dict entries gives them back. -/
lemma dictEntries_roundtrip (kv : List (String × Rat)) :
    ((kv.map fun p => (p.1, Json.num p.2)).map
      fun p => (p.1, jsonToRat p.2)) = kv := by
  induction kv with
  | nil => rfl
  | cons p kv ih => rw [List.map_cons, List.map_cons, ih]; rfl

/-- Decoding an encoded optional distribution gives it back: a dict comes
back as a dict, a list as a list, `None` as `None`. -/
lemma optDist_roundtrip (o : Option DistVal) :
    jsonToOptDist (optDistToJson o) = o := by
  cases o with
  | none => rfl
  | some d =>
    cases d with
    | dict kv =>
      simp only [optDistToJson, DistVal.toJson, jsonToOptDist]
      rw [dictEntries_roundtrip]
    | list vs =>
      simp only [optDistToJson, DistVal.toJson, jsonToOptDist]
      rw [jsonToRat_map_num]

/-- Claim C3: loading a directory written by `save` yields an instance whose
column set, numeric column subset, conditional column and conditional
distribution all equal the original's. -/
theorem save_load_roundtrip (st : GReaT) (dirExists : Bool) :
    ∃ st2, GReaT.load_from_dir true (st.save dirExists).2 = .ok st2 ∧
      st2.columns = st.columns ∧ st2.num_cols = st.num_cols ∧
      st2.conditional_col = st.conditional_col ∧
      st2.conditional_col_dist = st.conditional_col_dist := by
  refine ⟨_, rfl, ?_, ?_, ?_, ?_⟩
  · exact optListStr_roundtrip st.columns
  · exact optListStr_roundtrip st.num_cols
  · exact optStr_roundtrip st.conditional_col
  · exact optDist_roundtrip st.conditional_col_dist

/-- Claim C8: `save` on an existing target directory emits a warning and
still writes the configuration (overwriting rather than failing), while
`load_from_dir` on an absent directory fails hard, whatever the directory
would have contained. -/
theorem save_warns_load_requires_dir (st : GReaT) (cfg : List (String × Json)) :
    (st.save true).1 = ["Directory already exists and is overwritten now."] ∧
    (st.save true).2 = st.saveConfig ∧
    (st.save false).1 = [] ∧
    (st.save false).2 = st.saveConfig ∧
    GReaT.load_from_dir false cfg = .error "Directory does not exist." :=
  ⟨rfl, rfl, rfl, rfl, rfl⟩

/-- Counterexample to C7 as stated: the column name `""` is a string present
in the column set `["", "b"]`, so no error is raised, yet the code
establishes the last column `"b"` — not the supplied `""` — as the
conditional column, because the Python fallback tests truthiness rather than
`is None`. -/
theorem updateCond_establishes_counterexample :
    (GReaT.init "gpt2").updateConditionalInformation ["", "b"] (.str "")
        (fun _ => .list []) =
      .ok { GReaT.init "gpt2" with
        conditional_col := some "b"
        conditional_col_dist := some (.list []) } ∧
    (some "b" : Option String) ≠ some "" :=
  ⟨rfl, by decide⟩

/-- Claim C7, amended: fit fails fast when the supplied conditional column is
non-None and not a string, or is a string not in the column set; otherwise it
establishes the supplied column — except that when the argument is `None` or
the empty string, the last column is established instead. -/
theorem updateCond_amended (st : GReaT) (dc : List String)
    (distOf : String → DistVal) (last : String)
    (hlast : dc.getLast? = some last) :
    (st.updateConditionalInformation dc .other distOf =
      .error "The column name has to be a string") ∧
    (∀ s, s ∉ dc → st.updateConditionalInformation dc (.str s) distOf =
      .error "The column name is not in the feature names of the dataset") ∧
    (∀ s, s ∈ dc → s ≠ "" →
      st.updateConditionalInformation dc (.str s) distOf =
        .ok { st with
          conditional_col := some s
          conditional_col_dist := some (distOf s) }) ∧
    (st.updateConditionalInformation dc .none distOf =
      .ok { st with
        conditional_col := some last
        conditional_col_dist := some (distOf last) }) ∧
    (∀ s, s ∈ dc → s = "" →
      st.updateConditionalInformation dc (.str s) distOf =
        .ok { st with
          conditional_col := some last
          conditional_col_dist := some (distOf last) }) := by
  refine ⟨rfl, ?_, ?_, ?_, ?_⟩
  · intro s hs
    simp only [GReaT.updateConditionalInformation]
    rw [if_neg hs]
  · intro s hs hne
    simp only [GReaT.updateConditionalInformation]
    rw [if_pos hs, if_pos hne]
  · simp only [GReaT.updateConditionalInformation]
    rw [hlast]
  · intro s hs he
    subst he
    simp only [GReaT.updateConditionalInformation]
    rw [if_pos hs, if_neg (fun h => h rfl), hlast]

/-- Witness for the amended C7, at column set `["", "b"]`: a non-string
errors, an unknown name errors, a known non-empty name is established, and
`None` as well as the known empty name give the last column `"b"`. -/
theorem updateCond_amended_witness :
    ((["", "b"] : List String).getLast? = some "b") ∧
    ((GReaT.init "gpt2").updateConditionalInformation ["", "b"] .other
        (fun _ => .list []) = .error "The column name has to be a string") ∧
    ((GReaT.init "gpt2").updateConditionalInformation ["", "b"] (.str "zz")
        (fun _ => .list []) =
      .error "The column name is not in the feature names of the dataset") ∧
    ((GReaT.init "gpt2").updateConditionalInformation ["", "b"] (.str "b")
        (fun _ => .list []) =
      .ok { GReaT.init "gpt2" with
        conditional_col := some "b"
        conditional_col_dist := some (.list []) }) ∧
    ((GReaT.init "gpt2").updateConditionalInformation ["", "b"] .none
        (fun _ => .list []) =
      .ok { GReaT.init "gpt2" with
        conditional_col := some "b"
        conditional_col_dist := some (.list []) }) ∧
    ((GReaT.init "gpt2").updateConditionalInformation ["", "b"] (.str "")
        (fun _ => .list []) =
      .ok { GReaT.init "gpt2" with
        conditional_col := some "b"
        conditional_col_dist := some (.list []) }) :=
  ⟨rfl,
   (updateCond_amended (GReaT.init "gpt2") ["", "b"] (fun _ => .list [])
     "b" rfl).1,
   (updateCond_amended (GReaT.init "gpt2") ["", "b"] (fun _ => .list [])
     "b" rfl).2.1 "zz" (by decide),
   (updateCond_amended (GReaT.init "gpt2") ["", "b"] (fun _ => .list [])
     "b" rfl).2.2.1 "b" (by decide) (by decide),
   (updateCond_amended (GReaT.init "gpt2") ["", "b"] (fun _ => .list [])
     "b" rfl).2.2.2.1,
   (updateCond_amended (GReaT.init "gpt2") ["", "b"] (fun _ => .list [])
     "b" rfl).2.2.2.2 "" (by decide) rfl⟩

end BeGreat
